import Mathlib

/-!
Verification development for `minisci/preprocess.py` (ETHmodlab/minisci).

The script turns a table of reaction records into three keyed feature
containers.  Its own logic — per-molecule feature extraction
(`get_3dG_from_smi`), vocabulary-based condition encoding, and container
assembly — is embedded here shallowly:

* machine floats become `ℚ` (all arithmetic the script performs on them is
  exact field arithmetic, so `ℚ` is a faithful carrier; the one comparison
  `distance ≤ 4` is rendered as `squared distance ≤ 16`, which is
  equivalent over nonnegative reals and avoids square roots);
* the external chemistry toolkit (SMILES parsing, 3D embedding, force-field
  relaxation, fingerprinting) is an out-of-scope collaborator: the parsed
  molecule is taken as input, and the embedding routine is modelled from its
  documented contract where a claim depends on it;
* the `h5py`/`torch.save` containers become association lists from dataset
  names to data.
-/

namespace Minisci

/-- Data stored in one dataset of an output container: an array of naturals,
a matrix of naturals (the 2×E edge matrices and the 1×256 fingerprint rows),
an array of rationals, or a matrix of rationals (the n×3 coordinates). -/
inductive H5Data where
  | natArr : List ℕ → H5Data
  | natMat : List (List ℕ) → H5Data
  | ratArr : List ℚ → H5Data
  | ratMat : List (List ℚ) → H5Data
deriving DecidableEq, Repr

/-- Python `str` of a boolean, as fed to the ring/aromaticity dictionaries. -/
def boolStr (b : Bool) : String := if b then "True" else "False"

/-- Modelled from the spec: `ATOMTYPE_DICT` lives in `minisci.utils`, which is
not under `src/`.  It is a closed element-symbol-to-id dictionary; the spec
pins only that id 1 marks the hydrogen class, so the model sends "H" to 1 and
every other symbol to an unspecified distinct id. -/
def ATOMTYPE_DICT (s : String) : ℕ := if s = "H" then 1 else 2

/-- Modelled from the spec: `IS_RING_DICT` from `minisci.utils` (not under
`src/`), a boolean-to-int dictionary keyed by Python `str(bool)`. -/
def IS_RING_DICT (s : String) : ℕ := if s = "True" then 1 else 0

/-- Modelled from the spec: `AROMATOCITY_DICT` from `minisci.utils` (not under
`src/`), a boolean-to-int dictionary keyed by Python `str(bool)`. -/
def AROMATOCITY_DICT (s : String) : ℕ := if s = "True" then 1 else 0

/-- Modelled from the spec: `HYBRIDISATION_DICT` from `minisci.utils` (not
under `src/`), a closed dictionary over hybridization-state names; the spec
pins only that some state carries id 1 (modelled: "SP3"). -/
def HYBRIDISATION_DICT (s : String) : ℕ := if s = "SP3" then 1 else 2

/-- One atom of the parsed, explicit-hydrogen molecule, carrying exactly the
attributes `get_3dG_from_smi` reads from the toolkit atom object. -/
structure AtomInfo where
  symbol : String
  isInRing : Bool
  hybridization : String
  isAromatic : Bool
deriving DecidableEq, Repr

/-- The toolkit molecule as `get_3dG_from_smi` consumes it after embedding:
an ordered atom list, a bond list of (begin-index, end-index) pairs, and the
conformer positions indexed by atom.  `bonds_lt` is the toolkit's invariant
that bond endpoints are valid atom indices. -/
structure Molecule where
  atoms : List AtomInfo
  bonds : List (ℕ × ℕ)
  pos : ℕ → ℚ × ℚ × ℚ
  bonds_lt : ∀ b ∈ bonds, b.1 < atoms.length ∧ b.2 < atoms.length

/-- `list(mol.GetConformer().GetAtomPosition(idx))`: the 3-component
coordinate row of one atom. -/
def pointToList (p : ℚ × ℚ × ℚ) : List ℚ := [p.1, p.2.1, p.2.2]

/-- Squared Euclidean distance between two coordinate rows, the exact
counterpart of the script's `pdist` distances compared against 4. -/
def distSq (p q : List ℚ) : ℚ := ((p.zip q).map (fun c => (c.1 - c.2) * (c.1 - c.2))).sum

/-- Lines 83–85: pairwise distances with the diagonal forced to infinity,
thresholded at 4, read off by `np.where` in row-major order.  `(i, j)` is
kept iff `i ≠ j` and the distance is at most 4 (squared distance ≤ 16). -/
def proximityPairs (crds : List (List ℚ)) : List (ℕ × ℕ) :=
  (List.range crds.length).flatMap (fun i =>
    ((List.range crds.length).filter
        (fun j => !(i == j) && decide (distSq (crds.getD i []) (crds.getD j []) ≤ 16))).map
      (fun j => (i, j)))

/-- Line 75–76: the first row of the bond-edge matrix. -/
def edge_dir1 (bonds : List (ℕ × ℕ)) : List ℕ := bonds.flatMap (fun b => [b.1, b.2])

/-- Line 77–78: the second row of the bond-edge matrix. -/
def edge_dir2 (bonds : List (ℕ × ℕ)) : List ℕ := bonds.flatMap (fun b => [b.2, b.1])

/-- The 8-tuple returned by `get_3dG_from_smi` (lines 87–96).  The two edge
outputs keep the script's 2×E matrix shape as a pair of rows. -/
structure FeatOutput where
  atomids : List ℕ
  is_ring : List ℕ
  hyb : List ℕ
  arom : List ℕ
  edge_2d : List ℕ × List ℕ
  edge_3d : List ℕ × List ℕ
  crds_3d : List (List ℚ)
  tokeep : List ℕ
deriving DecidableEq, Repr

/-- Lines 46–96 of `get_3dG_from_smi`: the per-atom feature pass and the two
edge constructions, applied to the embedded molecule. -/
def featurizeMol (mol : Molecule) : FeatOutput :=
  let n := mol.atoms.length
  let atomids := mol.atoms.map (fun a => ATOMTYPE_DICT a.symbol)
  let ringIds := mol.atoms.map (fun a => IS_RING_DICT (boolStr a.isInRing))
  let hybIds := mol.atoms.map (fun a => HYBRIDISATION_DICT a.hybridization)
  let aromIds := mol.atoms.map (fun a => AROMATOCITY_DICT (boolStr a.isAromatic))
  let crds := (List.range n).map (fun idx => pointToList (mol.pos idx))
  let keep := mol.atoms.map (fun a =>
    if ATOMTYPE_DICT a.symbol = 1 ∧ IS_RING_DICT (boolStr a.isInRing) = 0 ∧
        AROMATOCITY_DICT (boolStr a.isAromatic) = 0 ∧ HYBRIDISATION_DICT a.hybridization = 1
    then 1 else 0)
  let prox := proximityPairs crds
  { atomids := atomids
    is_ring := ringIds
    hyb := hybIds
    arom := aromIds
    edge_2d := (edge_dir1 mol.bonds, edge_dir2 mol.bonds)
    edge_3d := (prox.map Prod.fst, prox.map Prod.snd)
    crds_3d := crds
    tokeep := keep }

/-- Modelled from the spec: the external 3D embedding routine (an out-of-scope
collaborator).  Its documented positional parameters after the molecule are
`maxAttempts` (default 0) and then `randomSeed` (default -1); with a
non-negative `randomSeed` the generated coordinates depend only on the
molecule and the seed, while `randomSeed = -1` draws them from the
process-global random state, which this model passes in explicitly as
`globalRng`.  `maxAttempts` only bounds retries and does not influence the
coordinates of a successful embedding. -/
def EmbedMolecule (mol : Molecule) (_maxAttempts : ℕ) (randomSeed : ℤ) (globalRng : ℕ) :
    Molecule :=
  if randomSeed = -1 then
    { mol with pos := fun i => ((globalRng : ℚ) + i, 0, 0) }
  else
    { mol with pos := fun i => ((randomSeed.toNat : ℚ) + i, 0, 0) }

/-- Modelled from the spec: deterministic force-field relaxation of the
conformer coordinates; its numerical action is out of scope for every claim
and is modelled as leaving the coordinates unchanged. -/
def UFFOptimizeMolecule (mol : Molecule) : Molecule := mol

/-- Lines 43–96 of `get_3dG_from_smi`, after SMILES parsing: the source calls
`AllChem.EmbedMolecule(mol, randomSeed)`, which under the documented
positional signature passes the seed into the `maxAttempts` slot and leaves
`randomSeed` at its default -1; then optimizes and featurizes. -/
def get_3dG_from_mol (mol : Molecule) (randomSeed : ℕ) (globalRng : ℕ) : FeatOutput :=
  featurizeMol (UFFOptimizeMolecule (EmbedMolecule mol randomSeed (-1) globalRng))

/-- Lines 249–292: the 40 datasets written into a substrate-container section
from the five featurizer outputs, in creation order. -/
def substrateSection (oa ob oc od oe : FeatOutput) : List (String × H5Data) :=
  [("atom_id_1_a", .natArr oa.atomids), ("ring_id_1_a", .natArr oa.is_ring),
   ("hybr_id_1_a", .natArr oa.hyb), ("arom_id_1_a", .natArr oa.arom),
   ("edge_2d_1_a", .natMat [oa.edge_2d.1, oa.edge_2d.2]),
   ("edge_3d_1_a", .natMat [oa.edge_3d.1, oa.edge_3d.2]),
   ("crds_3d_1_a", .ratMat oa.crds_3d), ("to_keep_1_a", .natArr oa.tokeep),
   ("atom_id_1_b", .natArr ob.atomids), ("ring_id_1_b", .natArr ob.is_ring),
   ("hybr_id_1_b", .natArr ob.hyb), ("arom_id_1_b", .natArr ob.arom),
   ("edge_2d_1_b", .natMat [ob.edge_2d.1, ob.edge_2d.2]),
   ("edge_3d_1_b", .natMat [ob.edge_3d.1, ob.edge_3d.2]),
   ("crds_3d_1_b", .ratMat ob.crds_3d), ("to_keep_1_b", .natArr ob.tokeep),
   ("atom_id_1_c", .natArr oc.atomids), ("ring_id_1_c", .natArr oc.is_ring),
   ("hybr_id_1_c", .natArr oc.hyb), ("arom_id_1_c", .natArr oc.arom),
   ("edge_2d_1_c", .natMat [oc.edge_2d.1, oc.edge_2d.2]),
   ("edge_3d_1_c", .natMat [oc.edge_3d.1, oc.edge_3d.2]),
   ("crds_3d_1_c", .ratMat oc.crds_3d), ("to_keep_1_c", .natArr oc.tokeep),
   ("atom_id_1_d", .natArr od.atomids), ("ring_id_1_d", .natArr od.is_ring),
   ("hybr_id_1_d", .natArr od.hyb), ("arom_id_1_d", .natArr od.arom),
   ("edge_2d_1_d", .natMat [od.edge_2d.1, od.edge_2d.2]),
   ("edge_3d_1_d", .natMat [od.edge_3d.1, od.edge_3d.2]),
   ("crds_3d_1_d", .ratMat od.crds_3d), ("to_keep_1_d", .natArr od.tokeep),
   ("atom_id_1_e", .natArr oe.atomids), ("ring_id_1_e", .natArr oe.is_ring),
   ("hybr_id_1_e", .natArr oe.hyb), ("arom_id_1_e", .natArr oe.arom),
   ("edge_2d_1_e", .natMat [oe.edge_2d.1, oe.edge_2d.2]),
   ("edge_3d_1_e", .natMat [oe.edge_3d.1, oe.edge_3d.2]),
   ("crds_3d_1_e", .ratMat oe.crds_3d), ("to_keep_1_e", .natArr oe.tokeep)]

/-- Lines 363–401: the 35 datasets written into an acid-container section
from the five featurizer outputs, in creation order; the keep-flag array is
not written for this role. -/
def acidSection (oa ob oc od oe : FeatOutput) : List (String × H5Data) :=
  [("atom_id_2_a", .natArr oa.atomids), ("ring_id_2_a", .natArr oa.is_ring),
   ("hybr_id_2_a", .natArr oa.hyb), ("arom_id_2_a", .natArr oa.arom),
   ("edge_2d_2_a", .natMat [oa.edge_2d.1, oa.edge_2d.2]),
   ("edge_3d_2_a", .natMat [oa.edge_3d.1, oa.edge_3d.2]),
   ("crds_3d_2_a", .ratMat oa.crds_3d),
   ("atom_id_2_b", .natArr ob.atomids), ("ring_id_2_b", .natArr ob.is_ring),
   ("hybr_id_2_b", .natArr ob.hyb), ("arom_id_2_b", .natArr ob.arom),
   ("edge_2d_2_b", .natMat [ob.edge_2d.1, ob.edge_2d.2]),
   ("edge_3d_2_b", .natMat [ob.edge_3d.1, ob.edge_3d.2]),
   ("crds_3d_2_b", .ratMat ob.crds_3d),
   ("atom_id_2_c", .natArr oc.atomids), ("ring_id_2_c", .natArr oc.is_ring),
   ("hybr_id_2_c", .natArr oc.hyb), ("arom_id_2_c", .natArr oc.arom),
   ("edge_2d_2_c", .natMat [oc.edge_2d.1, oc.edge_2d.2]),
   ("edge_3d_2_c", .natMat [oc.edge_3d.1, oc.edge_3d.2]),
   ("crds_3d_2_c", .ratMat oc.crds_3d),
   ("atom_id_2_d", .natArr od.atomids), ("ring_id_2_d", .natArr od.is_ring),
   ("hybr_id_2_d", .natArr od.hyb), ("arom_id_2_d", .natArr od.arom),
   ("edge_2d_2_d", .natMat [od.edge_2d.1, od.edge_2d.2]),
   ("edge_3d_2_d", .natMat [od.edge_3d.1, od.edge_3d.2]),
   ("crds_3d_2_d", .ratMat od.crds_3d),
   ("atom_id_2_e", .natArr oe.atomids), ("ring_id_2_e", .natArr oe.is_ring),
   ("hybr_id_2_e", .natArr oe.hyb), ("arom_id_2_e", .natArr oe.arom),
   ("edge_2d_2_e", .natMat [oe.edge_2d.1, oe.edge_2d.2]),
   ("edge_3d_2_e", .natMat [oe.edge_3d.1, oe.edge_3d.2]),
   ("crds_3d_2_e", .ratMat oe.crds_3d)]

/-- One call to the featurizer, instrumented with a call log so that the
number and arguments of the invocations a loop body makes are observable.
`f` stands for `get_3dG_from_smi` on descriptor and seed. -/
def callFeaturizer (f : String → ℕ → FeatOutput) (smi : String) (seed : ℕ)
    (log : List (String × ℕ)) : FeatOutput × List (String × ℕ) :=
  (f smi seed, log ++ [(smi, seed)])

/-- Lines 190–292: the substrate-loop body for one unique descriptor — five
featurizer calls with literal seeds, then the section write. -/
def processSubstrate (f : String → ℕ → FeatOutput) (smi : String)
    (log0 : List (String × ℕ)) : List (String × H5Data) × List (String × ℕ) :=
  let ra := callFeaturizer f smi 0xF00A log0
  let rb := callFeaturizer f smi 0xF00B ra.2
  let rc := callFeaturizer f smi 0xF00C rb.2
  let rd := callFeaturizer f smi 0xF00D rc.2
  let re := callFeaturizer f smi 0xF00E rd.2
  (substrateSection ra.1 rb.1 rc.1 rd.1 re.1, re.2)

/-- Lines 304–401: the acid-loop body for one unique descriptor — five
featurizer calls with literal seeds, then the section write. -/
def processAcid (f : String → ℕ → FeatOutput) (smi : String)
    (log0 : List (String × ℕ)) : List (String × H5Data) × List (String × ℕ) :=
  let ra := callFeaturizer f smi 0xF00A log0
  let rb := callFeaturizer f smi 0xF00B ra.2
  let rc := callFeaturizer f smi 0xF00C rb.2
  let rd := callFeaturizer f smi 0xF00D rc.2
  let re := callFeaturizer f smi 0xF00E rd.2
  (acidSection ra.1 rb.1 rc.1 rd.1 re.1, re.2)

/-- Accumulator loop of the vocabulary builder: walk the column, append a
(value, next-id) entry on first sight, skip values already assigned. -/
def dictGo : List String → List (String × ℕ) → List (String × ℕ)
  | [], acc => acc
  | x :: rest, acc =>
      if (acc.lookup x).isSome then dictGo rest acc
      else dictGo rest (acc ++ [(x, acc.length)])

/-- Modelled from the spec: `get_dict_for_embedding` from `minisci.utils`
(not under `src/`) builds one categorical vocabulary from a column by
enumerating its distinct values in first-seen order and assigning sequential
integer ids starting at 0. -/
def get_dict_for_embedding (xs : List String) : List (String × ℕ) := dictGo xs []

/-- One row of the input table, after the column extraction and coercions of
lines 103–134 and the `float` casts of lines 412–421: categorical columns as
strings, numeric columns as exact rationals. -/
structure Row where
  rxn_id : String
  temperature_deg_c : ℚ
  time_h : ℚ
  atmosphere : String
  scale_umol : ℚ
  concentration_mmol_l : ℚ
  startingmat_1_smiles : String
  startingmat_2_smiles : String
  startingmat_2_eq : ℚ
  reagent_1_smiles : String
  reagent_1_eq : ℚ
  catalyst_1_smiles : String
  catalyst_1_eq : ℚ
  additive_1_smiles : String
  additive_1_eq : ℚ
  solvent_1_smiles : String
  solvent_1_fraction : ℚ
  solvent_2_smiles : String
  solvent_2_fraction : ℚ
  product_mono : ℚ
  product_di : ℚ
  product_non : ℚ
  binary : ℚ
deriving DecidableEq, Repr

/-- A default row, used only as the fallback of `List.getD`. -/
def row0 : Row :=
  { rxn_id := "", temperature_deg_c := 0, time_h := 0, atmosphere := "",
    scale_umol := 0, concentration_mmol_l := 0, startingmat_1_smiles := "",
    startingmat_2_smiles := "", startingmat_2_eq := 0, reagent_1_smiles := "",
    reagent_1_eq := 0, catalyst_1_smiles := "", catalyst_1_eq := 0,
    additive_1_smiles := "", additive_1_eq := 0, solvent_1_smiles := "",
    solvent_1_fraction := 0, solvent_2_smiles := "", solvent_2_fraction := 0,
    product_mono := 0, product_di := 0, product_non := 0, binary := 0 }

/-- Line 164: `product_all = [float(product_mono[i] + product_di[i]) for i, x
in enumerate(product_mono)]`. -/
def product_all (mono di : List ℚ) : List ℚ :=
  (List.range mono.length).map (fun i => mono.getD i 0 + di.getD i 0)

/-- Lines 437–464: the 20 datasets of one reaction-container section, in
creation order, from the values computed for that row. -/
def reactionSection (ecfp1 ecfp2 : List ℕ)
    (rgt_eq sm2_eq conc_m tmp_de hours_ scale_ cat_eq add_eq sol_f1 sol_f2 : ℚ)
    (rea_id so1_id so2_id cat_id add_id atm_id : ℕ)
    (trg_yld trg_bin : ℚ) : List (String × H5Data) :=
  [("ecfp4_2_1", .natMat [ecfp1]), ("ecfp4_2_2", .natMat [ecfp2]),
   ("rgt_eq", .ratArr [rgt_eq]), ("sm2_eq", .ratArr [sm2_eq]),
   ("conc_m", .ratArr [conc_m]), ("tmp_de", .ratArr [tmp_de]),
   ("hours_", .ratArr [hours_]), ("scale_", .ratArr [scale_]),
   ("cat_eq", .ratArr [cat_eq]), ("add_eq", .ratArr [add_eq]),
   ("sol_f1", .ratArr [sol_f1]), ("sol_f2", .ratArr [sol_f2]),
   ("rea_id", .natArr [rea_id]), ("so1_id", .natArr [so1_id]),
   ("so2_id", .natArr [so2_id]), ("cat_id", .natArr [cat_id]),
   ("add_id", .natArr [add_id]), ("atm_id", .natArr [atm_id]),
   ("trg_yld", .ratArr [trg_yld]), ("trg_bin", .ratArr [trg_bin])]

/-- The two fingerprint dataset names of a reaction section (lines 440–441). -/
def reactionFingerprintFields : List String := ["ecfp4_2_1", "ecfp4_2_2"]

/-- The numeric condition dataset names of a reaction section, lines 444–453
(the block under the `Conditions` comment before the categorical ids). -/
def reactionNumericConditionFields : List String :=
  ["rgt_eq", "sm2_eq", "conc_m", "tmp_de", "hours_", "scale_", "cat_eq",
   "add_eq", "sol_f1", "sol_f2"]

/-- The categorical-id dataset names of a reaction section (lines 455–460). -/
def reactionCategoricalIdFields : List String :=
  ["rea_id", "so1_id", "so2_id", "cat_id", "add_id", "atm_id"]

/-- The target dataset names of a reaction section (lines 463–464). -/
def reactionTargetFields : List String := ["trg_yld", "trg_bin"]

/-- Lines 409–464, body for one row: the six vocabulary lookups (a missing
key raises `KeyError` in Python, modelled as the error branch), the two
fingerprints via `fp` standing for `get_fp_from_smi`, then the section
keyed by the row's reaction id. -/
def encodeRow (fp : String → List ℕ)
    (rea_dict so1_dict so2_dict cat_dict add_dict atm_dict : List (String × ℕ))
    (pa bin : List ℚ) (idx : ℕ) (row : Row) :
    Except String (String × List (String × H5Data)) :=
  match rea_dict.lookup row.reagent_1_smiles, so1_dict.lookup row.solvent_1_smiles,
      so2_dict.lookup row.solvent_2_smiles, cat_dict.lookup row.catalyst_1_smiles,
      add_dict.lookup row.additive_1_smiles, atm_dict.lookup row.atmosphere with
  | some rea_id, some so1_id, some so2_id, some cat_id, some add_id, some atm_id =>
      .ok (row.rxn_id,
        reactionSection (fp row.startingmat_1_smiles) (fp row.startingmat_2_smiles)
          row.reagent_1_eq row.startingmat_2_eq row.concentration_mmol_l
          row.temperature_deg_c row.time_h row.scale_umol row.catalyst_1_eq
          row.additive_1_eq row.solvent_1_fraction row.solvent_2_fraction
          rea_id so1_id so2_id cat_id add_id atm_id
          (pa.getD idx 0) (bin.getD idx 0))
  | _, _, _, _, _, _ => .error "KeyError"

/-- The reaction loop (lines 409–464) over the remaining rows, threading the
running row index of `enumerate`. -/
def encodeRows (fp : String → List ℕ)
    (rea_dict so1_dict so2_dict cat_dict add_dict atm_dict : List (String × ℕ))
    (pa bin : List ℚ) :
    ℕ → List Row → Except String (List (String × List (String × H5Data)))
  | _, [] => .ok []
  | idx, row :: rest => do
      let sec ← encodeRow fp rea_dict so1_dict so2_dict cat_dict add_dict atm_dict
        pa bin idx row
      let tail ← encodeRows fp rea_dict so1_dict so2_dict cat_dict add_dict atm_dict
        pa bin (idx + 1) rest
      .ok (sec :: tail)

/-- The reaction-encoding phase: vocabularies built from the six condition
columns (lines 138–143), the combined target (line 164), then the loop over
all rows writing one section per reaction id (lines 408–464). -/
def encodeReactions (fp : String → List ℕ) (rows : List Row) :
    Except String (List (String × List (String × H5Data))) :=
  encodeRows fp
    (get_dict_for_embedding (rows.map (fun r => r.reagent_1_smiles)))
    (get_dict_for_embedding (rows.map (fun r => r.solvent_1_smiles)))
    (get_dict_for_embedding (rows.map (fun r => r.solvent_2_smiles)))
    (get_dict_for_embedding (rows.map (fun r => r.catalyst_1_smiles)))
    (get_dict_for_embedding (rows.map (fun r => r.additive_1_smiles)))
    (get_dict_for_embedding (rows.map (fun r => r.atmosphere)))
    (product_all (rows.map (fun r => r.product_mono)) (rows.map (fun r => r.product_di)))
    (rows.map (fun r => r.binary))
    0 rows

/-- The required input columns, in the order lines 103–134 extract them from
the data frame; a missing one raises there, before any output exists. -/
def requiredColumns : List String :=
  ["rxn_id", "temperature_deg_c", "time_h", "atmosphere", "scale_umol",
   "concentration_mmol_l", "startingmat_1_smiles", "startingmat_2_smiles",
   "startingmat_2_eq", "reagent_1_smiles", "reagent_1_eq", "catalyst_1_smiles",
   "catalyst_1_eq", "additive_1_smiles", "additive_1_eq", "solvent_1_smiles",
   "solvent_1_fraction", "solvent_2_smiles", "solvent_2_fraction",
   "product_mono", "product_di", "product_non", "binary"]

/-- The output artifacts, in the order the script creates them: the
vocabulary artifact (line 167), the reaction-to-descriptors lookup (line
181), and the three containers (lines 186, 301, 408). -/
def outputFiles : List String :=
  ["lsf_rxn_cond_dicts", "rxn_smi_dict", "lsf_rxn_substrate",
   "lsf_rxn_carbacids", "lsf_rxn_conditions"]

/-- An observable step of the main script: reading one column from the data
frame, or creating one output file. -/
inductive MainEvent where
  | readColumn : String → MainEvent
  | writeFile : String → MainEvent
deriving DecidableEq, Repr

/-- The ordered column-read and file-creation events of the main script:
every column extraction (lines 103–134) happens before the first output file
is created (line 167). -/
def mainEvents : List MainEvent :=
  requiredColumns.map MainEvent.readColumn ++ outputFiles.map MainEvent.writeFile

/-- Run the event list against a table membership predicate: a read of a
missing column aborts (the uncaught `KeyError`), returning the files created
so far and the offending column; otherwise all events execute. -/
def runEvents (present : String → Bool) :
    List MainEvent → List String × Option String
  | [] => ([], none)
  | MainEvent.readColumn c :: rest =>
      if present c then runEvents present rest else ([], some c)
  | MainEvent.writeFile f :: rest =>
      let r := runEvents present rest
      (f :: r.1, r.2)

/-- Zipping the two projections of a pair list recovers the list: the 2×E
edge matrices determine their column pairs. -/
theorem zip_map_fst_snd {α β : Type} (l : List (α × β)) :
    (l.map Prod.fst).zip (l.map Prod.snd) = l := by
  induction l with
  | nil => rfl
  | cons h t ih => simp [ih]

/-- Squared Euclidean distance is symmetric. -/
theorem distSq_comm (p q : List ℚ) : distSq p q = distSq q p := by
  induction p generalizing q with
  | nil => cases q <;> simp [distSq]
  | cons a p ih =>
      cases q with
      | nil => simp [distSq]
      | cons b q =>
          have hq := ih q
          simp [distSq, List.zip_cons_cons] at hq ⊢
          rw [show a - b = -(b - a) by ring, neg_mul_neg, hq]

/-- Membership in the proximity-pair list is exactly: both indices in range,
distinct, and within the distance threshold. -/
theorem mem_proximityPairs {crds : List (List ℚ)} {i j : ℕ} :
    (i, j) ∈ proximityPairs crds ↔
      i < crds.length ∧ j < crds.length ∧ i ≠ j ∧
        distSq (crds.getD i []) (crds.getD j []) ≤ 16 := by
  simp only [proximityPairs, List.mem_flatMap, List.mem_map, List.mem_filter,
    List.mem_range, Bool.and_eq_true, Bool.not_eq_eq_eq_not, Bool.not_true,
    decide_eq_true_eq, beq_eq_false_iff_ne, ne_eq, Prod.mk.injEq]
  constructor
  · rintro ⟨a, ha, b, ⟨hb, hab, hd⟩, rfl, rfl⟩
    exact ⟨ha, hb, hab, hd⟩
  · rintro ⟨hi, hj, hij, hd⟩
    exact ⟨i, hi, j, ⟨hj, hij, hd⟩, rfl, rfl⟩

/-- The coordinate rows of the featurizer output, row by row. -/
theorem featurizeMol_crds_3d_getD (mol : Molecule) (i : ℕ)
    (hi : i < mol.atoms.length) :
    (featurizeMol mol).crds_3d.getD i [] = pointToList (mol.pos i) := by
  have hlen : i < ((List.range mol.atoms.length).map
      (fun idx => pointToList (mol.pos idx))).length := by simpa using hi
  show ((List.range mol.atoms.length).map
      (fun idx => pointToList (mol.pos idx))).getD i [] = _
  rw [List.getD_eq_getElem _ _ hlen, List.getElem_map, List.getElem_range]

/-- Length of the coordinate matrix. -/
theorem featurizeMol_crds_3d_length (mol : Molecule) :
    (featurizeMol mol).crds_3d.length = mol.atoms.length := by
  show ((List.range mol.atoms.length).map
      (fun idx => pointToList (mol.pos idx))).length = _
  simp

/-- C1 — For every successful call to the featurizer and for every ordered
pair of distinct atom indices (i, j) whose Euclidean 3D distance in the
generated conformer is at most 4.0 (squared distance at most 16), both
(i, j) and (j, i) appear as columns of the proximity-edge output, and no
self-pair (i, i) appears in it. -/
theorem C1_proximity_edges_symmetric_irreflexive (mol : Molecule) (i j : ℕ)
    (hi : i < mol.atoms.length) (hj : j < mol.atoms.length) (hij : i ≠ j)
    (hd : distSq (pointToList (mol.pos i)) (pointToList (mol.pos j)) ≤ 16) :
    (i, j) ∈ (featurizeMol mol).edge_3d.1.zip (featurizeMol mol).edge_3d.2 ∧
    (j, i) ∈ (featurizeMol mol).edge_3d.1.zip (featurizeMol mol).edge_3d.2 ∧
    ∀ k : ℕ, (k, k) ∉ (featurizeMol mol).edge_3d.1.zip (featurizeMol mol).edge_3d.2 := by
  have hzip : (featurizeMol mol).edge_3d.1.zip (featurizeMol mol).edge_3d.2 =
      proximityPairs (featurizeMol mol).crds_3d := by
    show ((proximityPairs (featurizeMol mol).crds_3d).map Prod.fst).zip
        ((proximityPairs (featurizeMol mol).crds_3d).map Prod.snd) = _
    exact zip_map_fst_snd _
  have hlen := featurizeMol_crds_3d_length mol
  have hdi := featurizeMol_crds_3d_getD mol i hi
  have hdj := featurizeMol_crds_3d_getD mol j hj
  rw [hzip]
  refine ⟨?_, ?_, ?_⟩
  · rw [mem_proximityPairs]
    exact ⟨hlen ▸ hi, hlen ▸ hj, hij, by rw [hdi, hdj]; exact hd⟩
  · rw [mem_proximityPairs]
    refine ⟨hlen ▸ hj, hlen ▸ hi, fun h => hij h.symm, ?_⟩
    rw [hdi, hdj, distSq_comm]
    exact hd
  · intro k hk
    rw [mem_proximityPairs] at hk
    exact hk.2.2.1 rfl

/-- A concrete embedded molecule: an H and a C one length unit apart,
joined by a bond. -/
def mol2 : Molecule where
  atoms := [{ symbol := "H", isInRing := false, hybridization := "SP3", isAromatic := false },
            { symbol := "C", isInRing := false, hybridization := "SP3", isAromatic := false }]
  bonds := [(0, 1)]
  pos := fun i => if i = 0 then (0, 0, 0) else (1, 0, 0)
  bonds_lt := by decide

/-- Witness for C1 at the concrete molecule `mol2`: atoms 0 and 1 are at
distance 1 ≤ 4, so both proximity arcs appear and no self-pair does. -/
theorem C1_witness :
    (0, 1) ∈ (featurizeMol mol2).edge_3d.1.zip (featurizeMol mol2).edge_3d.2 ∧
    (1, 0) ∈ (featurizeMol mol2).edge_3d.1.zip (featurizeMol mol2).edge_3d.2 ∧
    ∀ k : ℕ, (k, k) ∉ (featurizeMol mol2).edge_3d.1.zip (featurizeMol mol2).edge_3d.2 :=
  C1_proximity_edges_symmetric_irreflexive mol2 0 1 (by decide) (by decide)
    (by decide) (by norm_num [mol2, pointToList, distSq])

/-- The bond-edge matrix's columns are exactly the two directed arcs of each
bond, in bond order. -/
theorem zip_edge_dirs (bonds : List (ℕ × ℕ)) :
    (edge_dir1 bonds).zip (edge_dir2 bonds) =
      bonds.flatMap (fun b => [(b.1, b.2), (b.2, b.1)]) := by
  induction bonds with
  | nil => rfl
  | cons b t ih => simp [edge_dir1, edge_dir2, List.zip_cons_cons] at ih ⊢; exact ih

/-- C2 — For every successful call to the featurizer and for every covalent
bond between atoms a and b of the parsed molecule, both directed arcs
(a, b) and (b, a) appear as columns of the bond-edge output. -/
theorem C2_bond_edges_symmetric (mol : Molecule) (a b : ℕ)
    (hb : (a, b) ∈ mol.bonds) :
    (a, b) ∈ (featurizeMol mol).edge_2d.1.zip (featurizeMol mol).edge_2d.2 ∧
    (b, a) ∈ (featurizeMol mol).edge_2d.1.zip (featurizeMol mol).edge_2d.2 := by
  have hzip : (featurizeMol mol).edge_2d.1.zip (featurizeMol mol).edge_2d.2 =
      mol.bonds.flatMap (fun x => [(x.1, x.2), (x.2, x.1)]) := zip_edge_dirs mol.bonds
  rw [hzip]
  constructor
  · exact List.mem_flatMap.mpr ⟨(a, b), hb, by simp⟩
  · exact List.mem_flatMap.mpr ⟨(a, b), hb, by simp⟩

/-- Witness for C2 at the concrete molecule `mol2` and its bond (0, 1). -/
theorem C2_witness :
    (0, 1) ∈ (featurizeMol mol2).edge_2d.1.zip (featurizeMol mol2).edge_2d.2 ∧
    (1, 0) ∈ (featurizeMol mol2).edge_2d.1.zip (featurizeMol mol2).edge_2d.2 :=
  C2_bond_edges_symmetric mol2 0 1 (by decide)

/-- C10 — For every successful call to the featurizer, the six per-atom
outputs (atom-type ids, ring flags, hybridization ids, aromaticity flags, 3D
coordinates, keep flags) all have length equal to the molecule's atom count,
every coordinate row has exactly three components, and every atom index
occurring in the bond-edge and proximity-edge outputs is below the atom
count. -/
theorem C10_output_shapes (mol : Molecule) :
    (featurizeMol mol).atomids.length = mol.atoms.length ∧
    (featurizeMol mol).is_ring.length = mol.atoms.length ∧
    (featurizeMol mol).hyb.length = mol.atoms.length ∧
    (featurizeMol mol).arom.length = mol.atoms.length ∧
    (featurizeMol mol).crds_3d.length = mol.atoms.length ∧
    (featurizeMol mol).tokeep.length = mol.atoms.length ∧
    (∀ c ∈ (featurizeMol mol).crds_3d, c.length = 3) ∧
    (∀ k ∈ (featurizeMol mol).edge_2d.1, k < mol.atoms.length) ∧
    (∀ k ∈ (featurizeMol mol).edge_2d.2, k < mol.atoms.length) ∧
    (∀ k ∈ (featurizeMol mol).edge_3d.1, k < mol.atoms.length) ∧
    (∀ k ∈ (featurizeMol mol).edge_3d.2, k < mol.atoms.length) := by
  have hlen := featurizeMol_crds_3d_length mol
  refine ⟨by simp [featurizeMol], by simp [featurizeMol], by simp [featurizeMol],
    by simp [featurizeMol], hlen, by simp [featurizeMol], ?_, ?_, ?_, ?_, ?_⟩
  · intro c hc
    have : c ∈ (List.range mol.atoms.length).map (fun idx => pointToList (mol.pos idx)) := hc
    rcases List.mem_map.mp this with ⟨idx, _, rfl⟩
    rfl
  · intro k hk
    have : k ∈ edge_dir1 mol.bonds := hk
    rcases List.mem_flatMap.mp this with ⟨b, hb, hkb⟩
    have hblt := mol.bonds_lt b hb
    simp only [List.mem_cons, List.not_mem_nil, or_false] at hkb
    rcases hkb with h1 | h1
    · exact h1 ▸ hblt.1
    · exact h1 ▸ hblt.2
  · intro k hk
    have : k ∈ edge_dir2 mol.bonds := hk
    rcases List.mem_flatMap.mp this with ⟨b, hb, hkb⟩
    have hblt := mol.bonds_lt b hb
    simp only [List.mem_cons, List.not_mem_nil, or_false] at hkb
    rcases hkb with h1 | h1
    · exact h1 ▸ hblt.2
    · exact h1 ▸ hblt.1
  · intro k hk
    have : k ∈ (proximityPairs (featurizeMol mol).crds_3d).map Prod.fst := hk
    rcases List.mem_map.mp this with ⟨p, hp, rfl⟩
    have hmem : (p.1, p.2) ∈ proximityPairs (featurizeMol mol).crds_3d := by
      simpa using hp
    have := (mem_proximityPairs.mp hmem).1
    omega
  · intro k hk
    have : k ∈ (proximityPairs (featurizeMol mol).crds_3d).map Prod.snd := hk
    rcases List.mem_map.mp this with ⟨p, hp, rfl⟩
    have hmem : (p.1, p.2) ∈ proximityPairs (featurizeMol mol).crds_3d := by
      simpa using hp
    have := (mem_proximityPairs.mp hmem).2.1
    omega

/-- A one-carbon molecule, before embedding (its pre-embedding positions are
irrelevant: the embedding overwrites them). -/
def mol1 : Molecule where
  atoms := [{ symbol := "C", isInRing := false, hybridization := "SP3", isAromatic := false }]
  bonds := []
  pos := fun _ => (0, 0, 0)
  bonds_lt := by simp

/-- A correctly seeded embedding (seed passed in the `randomSeed` slot) does
not depend on the process-global random state. -/
theorem EmbedMolecule_seeded_ignores_rng (mol : Molecule) (m : ℕ) (seed : ℤ)
    (hseed : seed ≠ -1) (rng1 rng2 : ℕ) :
    EmbedMolecule mol m seed rng1 = EmbedMolecule mol m seed rng2 := by
  simp [EmbedMolecule, hseed]

/-- C9 evidence — the featurizer as written is not deterministic in
(descriptor, seed): `get_3dG_from_smi` passes its seed into the embedding
routine's `maxAttempts` slot, leaving `randomSeed` at -1, so the conformer
depends on the process-global random state and two calls with the identical
(molecule, seed) pair can disagree (here: global states 0 and 1). -/
theorem C9_featurizer_not_seed_deterministic :
    get_3dG_from_mol mol1 0xF00A 0 ≠ get_3dG_from_mol mol1 0xF00A 1 := by
  intro h
  have hc := congrArg FeatOutput.crds_3d h
  have h0 : (get_3dG_from_mol mol1 0xF00A 0).crds_3d = [[0, 0, 0]] := by
    norm_num [get_3dG_from_mol, EmbedMolecule, UFFOptimizeMolecule, featurizeMol,
      mol1, pointToList, List.range_succ]
  have h1 : (get_3dG_from_mol mol1 0xF00A 1).crds_3d = [[1, 0, 0]] := by
    norm_num [get_3dG_from_mol, EmbedMolecule, UFFOptimizeMolecule, featurizeMol,
      mol1, pointToList, List.range_succ]
  rw [h0, h1] at hc
  simp at hc

/-- Whether `s` ends with the suffix `sfx`, computed on the character lists
(the kernel-friendly counterpart of `String.endsWith`). -/
def endsWithStr (s sfx : String) : Bool :=
  s.data.reverse.take sfx.data.length == sfx.data.reverse

/-- The 40 dataset names of a substrate-container section, in creation order
(lines 249-292). -/
def substrateSectionNames : List String :=
  ["atom_id_1_a", "ring_id_1_a", "hybr_id_1_a", "arom_id_1_a", "edge_2d_1_a",
   "edge_3d_1_a", "crds_3d_1_a", "to_keep_1_a",
   "atom_id_1_b", "ring_id_1_b", "hybr_id_1_b", "arom_id_1_b", "edge_2d_1_b",
   "edge_3d_1_b", "crds_3d_1_b", "to_keep_1_b",
   "atom_id_1_c", "ring_id_1_c", "hybr_id_1_c", "arom_id_1_c", "edge_2d_1_c",
   "edge_3d_1_c", "crds_3d_1_c", "to_keep_1_c",
   "atom_id_1_d", "ring_id_1_d", "hybr_id_1_d", "arom_id_1_d", "edge_2d_1_d",
   "edge_3d_1_d", "crds_3d_1_d", "to_keep_1_d",
   "atom_id_1_e", "ring_id_1_e", "hybr_id_1_e", "arom_id_1_e", "edge_2d_1_e",
   "edge_3d_1_e", "crds_3d_1_e", "to_keep_1_e"]

/-- The 35 dataset names of an acid-container section, in creation order
(lines 363-401). -/
def acidSectionNames : List String :=
  ["atom_id_2_a", "ring_id_2_a", "hybr_id_2_a", "arom_id_2_a", "edge_2d_2_a",
   "edge_3d_2_a", "crds_3d_2_a",
   "atom_id_2_b", "ring_id_2_b", "hybr_id_2_b", "arom_id_2_b", "edge_2d_2_b",
   "edge_3d_2_b", "crds_3d_2_b",
   "atom_id_2_c", "ring_id_2_c", "hybr_id_2_c", "arom_id_2_c", "edge_2d_2_c",
   "edge_3d_2_c", "crds_3d_2_c",
   "atom_id_2_d", "ring_id_2_d", "hybr_id_2_d", "arom_id_2_d", "edge_2d_2_d",
   "edge_3d_2_d", "crds_3d_2_d",
   "atom_id_2_e", "ring_id_2_e", "hybr_id_2_e", "arom_id_2_e", "edge_2d_2_e",
   "edge_3d_2_e", "crds_3d_2_e"]

/-- C5 — Every substrate-container section holds exactly 40 named arrays: 8
feature arrays per seed suffix `_a`..`_e`, including the keep-flag array;
every acid-container section holds exactly 35 named arrays: 7 per seed, the
keep-flag array omitted. -/
theorem C5_section_array_counts (oa ob oc od oe pa pb pc pd pe : FeatOutput) :
    (substrateSection oa ob oc od oe).map Prod.fst = substrateSectionNames ∧
    (acidSection pa pb pc pd pe).map Prod.fst = acidSectionNames ∧
    substrateSectionNames.length = 40 ∧ substrateSectionNames.Nodup ∧
    (substrateSectionNames.filter (fun nm => endsWithStr nm "_a")).length = 8 ∧
    (substrateSectionNames.filter (fun nm => endsWithStr nm "_b")).length = 8 ∧
    (substrateSectionNames.filter (fun nm => endsWithStr nm "_c")).length = 8 ∧
    (substrateSectionNames.filter (fun nm => endsWithStr nm "_d")).length = 8 ∧
    (substrateSectionNames.filter (fun nm => endsWithStr nm "_e")).length = 8 ∧
    acidSectionNames.length = 35 ∧ acidSectionNames.Nodup ∧
    (acidSectionNames.filter (fun nm => endsWithStr nm "_a")).length = 7 ∧
    (acidSectionNames.filter (fun nm => endsWithStr nm "_b")).length = 7 ∧
    (acidSectionNames.filter (fun nm => endsWithStr nm "_c")).length = 7 ∧
    (acidSectionNames.filter (fun nm => endsWithStr nm "_d")).length = 7 ∧
    (acidSectionNames.filter (fun nm => endsWithStr nm "_e")).length = 7 ∧
    "to_keep_1_a" ∈ substrateSectionNames ∧ "to_keep_1_b" ∈ substrateSectionNames ∧
    "to_keep_1_c" ∈ substrateSectionNames ∧ "to_keep_1_d" ∈ substrateSectionNames ∧
    "to_keep_1_e" ∈ substrateSectionNames ∧
    "to_keep_2_a" ∉ acidSectionNames ∧ "to_keep_2_b" ∉ acidSectionNames ∧
    "to_keep_2_c" ∉ acidSectionNames ∧ "to_keep_2_d" ∉ acidSectionNames ∧
    "to_keep_2_e" ∉ acidSectionNames := by
  refine ⟨rfl, rfl, ?_⟩
  decide

/-- C6 — For every unique descriptor of either reactant role, the loop body
invokes the featurizer exactly five times, with exactly the literal seeds
0xF00A–0xF00E in order, and the two roles use the same five seeds. -/
theorem C6_five_literal_seeds (f : String → ℕ → FeatOutput) (smi : String) :
    (processSubstrate f smi []).2 =
      [(smi, 0xF00A), (smi, 0xF00B), (smi, 0xF00C), (smi, 0xF00D), (smi, 0xF00E)] ∧
    (processAcid f smi []).2 = (processSubstrate f smi []).2 ∧
    (processSubstrate f smi []).2.length = 5 ∧
    ((processSubstrate f smi []).2.map Prod.snd = [0xF00A, 0xF00B, 0xF00C, 0xF00D, 0xF00E]) :=
  ⟨rfl, rfl, rfl, rfl⟩

/-- A key found in the front part of an association list is still found after
appending. -/
theorem lookup_append_isSome {l1 l2 : List (String × ℕ)} {x : String}
    (h : (l1.lookup x).isSome) : ((l1 ++ l2).lookup x).isSome := by
  induction l1 with
  | nil => simp [List.lookup] at h
  | cons kv t ih =>
      obtain ⟨k, v⟩ := kv
      simp only [List.cons_append, List.lookup] at h ⊢
      cases hxk : (x == k) with
      | true => simp
      | false => rw [hxk] at h; simpa using ih (by simpa using h)

/-- Appending a binding for `y` makes `y` found, whatever came before. -/
theorem lookup_append_singleton_isSome (acc : List (String × ℕ)) (y : String) (n : ℕ) :
    ((acc ++ [(y, n)]).lookup y).isSome := by
  induction acc with
  | nil => simp [List.lookup]
  | cons kv t ih =>
      obtain ⟨k, v⟩ := kv
      simp only [List.cons_append, List.lookup]
      cases hyk : (y == k) with
      | true => simp
      | false => simp [ih]

/-- The vocabulary-builder loop assigns an id to every value it walks over
(and keeps every id already assigned). -/
theorem dictGo_lookup_isSome :
    ∀ (xs : List String) (acc : List (String × ℕ)) (x : String),
      x ∈ xs ∨ (acc.lookup x).isSome = true →
      ((dictGo xs acc).lookup x).isSome = true := by
  intro xs
  induction xs with
  | nil =>
      intro acc x h
      rcases h with h | h
      · cases h
      · simpa [dictGo] using h
  | cons y rest ih =>
      intro acc x h
      by_cases hy : (acc.lookup y).isSome
      · rw [dictGo, if_pos hy]
        apply ih
        rcases h with hmem | hacc
        · rcases List.mem_cons.mp hmem with rfl | hmem2
          · exact Or.inr hy
          · exact Or.inl hmem2
        · exact Or.inr hacc
      · rw [dictGo, if_neg hy]
        apply ih
        rcases h with hmem | hacc
        · rcases List.mem_cons.mp hmem with rfl | hmem2
          · exact Or.inr (lookup_append_singleton_isSome acc x acc.length)
          · exact Or.inl hmem2
        · exact Or.inr (lookup_append_isSome hacc)

/-- Every value of the column a vocabulary was built from is a key of that
vocabulary. -/
theorem get_dict_lookup_isSome {xs : List String} {x : String} (h : x ∈ xs) :
    ((get_dict_for_embedding xs).lookup x).isSome = true :=
  dictGo_lookup_isSome xs [] x (Or.inl h)

/-- The reaction loop, on rows whose six categorical values are all keys of
the given vocabularies, succeeds and writes for each row the section built
from that row's values, the looked-up ids, and the running targets. -/
theorem encodeRows_eq_ok (fp : String → List ℕ)
    (d1 d2 d3 d4 d5 d6 : List (String × ℕ)) (pa bin : List ℚ) :
    ∀ (rs : List Row) (i0 : ℕ),
      (∀ r ∈ rs, (d1.lookup r.reagent_1_smiles).isSome = true ∧
        (d2.lookup r.solvent_1_smiles).isSome = true ∧
        (d3.lookup r.solvent_2_smiles).isSome = true ∧
        (d4.lookup r.catalyst_1_smiles).isSome = true ∧
        (d5.lookup r.additive_1_smiles).isSome = true ∧
        (d6.lookup r.atmosphere).isSome = true) →
      ∃ secs, encodeRows fp d1 d2 d3 d4 d5 d6 pa bin i0 rs = Except.ok secs ∧
        secs.length = rs.length ∧
        ∀ j, j < rs.length →
          secs.getD j ("", []) =
            ((rs.getD j row0).rxn_id,
              reactionSection (fp (rs.getD j row0).startingmat_1_smiles)
                (fp (rs.getD j row0).startingmat_2_smiles)
                (rs.getD j row0).reagent_1_eq (rs.getD j row0).startingmat_2_eq
                (rs.getD j row0).concentration_mmol_l (rs.getD j row0).temperature_deg_c
                (rs.getD j row0).time_h (rs.getD j row0).scale_umol
                (rs.getD j row0).catalyst_1_eq (rs.getD j row0).additive_1_eq
                (rs.getD j row0).solvent_1_fraction (rs.getD j row0).solvent_2_fraction
                ((d1.lookup (rs.getD j row0).reagent_1_smiles).getD 0)
                ((d2.lookup (rs.getD j row0).solvent_1_smiles).getD 0)
                ((d3.lookup (rs.getD j row0).solvent_2_smiles).getD 0)
                ((d4.lookup (rs.getD j row0).catalyst_1_smiles).getD 0)
                ((d5.lookup (rs.getD j row0).additive_1_smiles).getD 0)
                ((d6.lookup (rs.getD j row0).atmosphere).getD 0)
                (pa.getD (i0 + j) 0) (bin.getD (i0 + j) 0)) := by
  intro rs
  induction rs with
  | nil => intro i0 _; exact ⟨[], rfl, rfl, fun j hj => absurd hj (by simp)⟩
  | cons row rest ih =>
      intro i0 hall
      obtain ⟨h1, h2, h3, h4, h5, h6⟩ := hall row (List.mem_cons_self row rest)
      obtain ⟨v1, hv1⟩ := Option.isSome_iff_exists.mp h1
      obtain ⟨v2, hv2⟩ := Option.isSome_iff_exists.mp h2
      obtain ⟨v3, hv3⟩ := Option.isSome_iff_exists.mp h3
      obtain ⟨v4, hv4⟩ := Option.isSome_iff_exists.mp h4
      obtain ⟨v5, hv5⟩ := Option.isSome_iff_exists.mp h5
      obtain ⟨v6, hv6⟩ := Option.isSome_iff_exists.mp h6
      obtain ⟨secs, hok, hlen, hget⟩ :=
        ih (i0 + 1) (fun r hr => hall r (List.mem_cons_of_mem row hr))
      refine ⟨(row.rxn_id,
          reactionSection (fp row.startingmat_1_smiles) (fp row.startingmat_2_smiles)
            row.reagent_1_eq row.startingmat_2_eq row.concentration_mmol_l
            row.temperature_deg_c row.time_h row.scale_umol row.catalyst_1_eq
            row.additive_1_eq row.solvent_1_fraction row.solvent_2_fraction
            v1 v2 v3 v4 v5 v6 (pa.getD i0 0) (bin.getD i0 0)) :: secs, ?_, ?_, ?_⟩
      · simp only [encodeRows, encodeRow, hv1, hv2, hv3, hv4, hv5, hv6, hok]
        rfl
      · simpa using hlen
      · intro j hj
        cases j with
        | zero =>
            simp only [List.getD_cons_zero]
            rw [hv1, hv2, hv3, hv4, hv5, hv6]
            rfl
        | succ j =>
            have hj2 : j < rest.length := by simpa using hj
            have := hget j hj2
            have harith : i0 + 1 + j = i0 + (j + 1) := by omega
            rw [harith] at this
            simpa using this

/-- C7 — given that each vocabulary assigns an id to every distinct value of
the column it was built from (which `get_dict_for_embedding` guarantees by
construction), the categorical-id lookups of the reaction-encoding phase
never miss: the `KeyError` branch is unreachable and the whole phase
succeeds. -/
theorem C7_lookups_never_miss (fp : String → List ℕ) (rows : List Row) :
    ∃ secs, encodeReactions fp rows = Except.ok secs := by
  obtain ⟨secs, hok, -, -⟩ :=
    encodeRows_eq_ok fp
      (get_dict_for_embedding (rows.map (fun r => r.reagent_1_smiles)))
      (get_dict_for_embedding (rows.map (fun r => r.solvent_1_smiles)))
      (get_dict_for_embedding (rows.map (fun r => r.solvent_2_smiles)))
      (get_dict_for_embedding (rows.map (fun r => r.catalyst_1_smiles)))
      (get_dict_for_embedding (rows.map (fun r => r.additive_1_smiles)))
      (get_dict_for_embedding (rows.map (fun r => r.atmosphere)))
      (product_all (rows.map (fun r => r.product_mono)) (rows.map (fun r => r.product_di)))
      (rows.map (fun r => r.binary)) rows 0
      (fun r hr =>
        ⟨get_dict_lookup_isSome (List.mem_map_of_mem _ hr),
         get_dict_lookup_isSome (List.mem_map_of_mem _ hr),
         get_dict_lookup_isSome (List.mem_map_of_mem _ hr),
         get_dict_lookup_isSome (List.mem_map_of_mem _ hr),
         get_dict_lookup_isSome (List.mem_map_of_mem _ hr),
         get_dict_lookup_isSome (List.mem_map_of_mem _ hr)⟩)
  exact ⟨secs, hok⟩

/-- The combined-target list evaluates, at every valid row index, to the sum
of that row's two yield columns. -/
theorem product_all_getD (rows : List Row) (idx : ℕ) (h : idx < rows.length) :
    (product_all (rows.map (fun r => r.product_mono))
        (rows.map (fun r => r.product_di))).getD idx 0 =
      (rows.getD idx row0).product_mono + (rows.getD idx row0).product_di := by
  have hm : idx < (rows.map (fun r => r.product_mono)).length := by simpa using h
  have hd : idx < (rows.map (fun r => r.product_di)).length := by simpa using h
  have hr : idx < (List.range (rows.map (fun r => r.product_mono)).length).length := by
    simpa using h
  unfold product_all
  rw [List.getD_eq_getElem _ _ (by simpa using hr), List.getElem_map, List.getElem_range,
    List.getD_eq_getElem _ _ hm, List.getElem_map,
    List.getD_eq_getElem _ _ hd, List.getElem_map,
    List.getD_eq_getElem _ _ h]

/-- Looking up the continuous-target dataset in a reaction section yields the
target value it was created with. -/
theorem reactionSection_lookup_trg_yld (ecfp1 ecfp2 : List ℕ)
    (q1 q2 q3 q4 q5 q6 q7 q8 q9 q10 : ℚ) (n1 n2 n3 n4 n5 n6 : ℕ) (ty tb : ℚ) :
    (reactionSection ecfp1 ecfp2 q1 q2 q3 q4 q5 q6 q7 q8 q9 q10
        n1 n2 n3 n4 n5 n6 ty tb).lookup "trg_yld" = some (H5Data.ratArr [ty]) := rfl

/-- C3 — for every row of the input table, the continuous training target
written to the reaction container under `trg_yld` equals exactly the sum of
that row's `product_mono` and `product_di` values. -/
theorem C3_target_is_mono_plus_di (fp : String → List ℕ) (rows : List Row)
    (idx : ℕ) (secs : List (String × List (String × H5Data)))
    (hok : encodeReactions fp rows = Except.ok secs) (hidx : idx < rows.length) :
    ((secs.getD idx ("", [])).2).lookup "trg_yld" =
      some (H5Data.ratArr
        [(rows.getD idx row0).product_mono + (rows.getD idx row0).product_di]) := by
  obtain ⟨secs2, hok2, hlen2, hget2⟩ :=
    encodeRows_eq_ok fp
      (get_dict_for_embedding (rows.map (fun r => r.reagent_1_smiles)))
      (get_dict_for_embedding (rows.map (fun r => r.solvent_1_smiles)))
      (get_dict_for_embedding (rows.map (fun r => r.solvent_2_smiles)))
      (get_dict_for_embedding (rows.map (fun r => r.catalyst_1_smiles)))
      (get_dict_for_embedding (rows.map (fun r => r.additive_1_smiles)))
      (get_dict_for_embedding (rows.map (fun r => r.atmosphere)))
      (product_all (rows.map (fun r => r.product_mono)) (rows.map (fun r => r.product_di)))
      (rows.map (fun r => r.binary)) rows 0
      (fun r hr =>
        ⟨get_dict_lookup_isSome (List.mem_map_of_mem _ hr),
         get_dict_lookup_isSome (List.mem_map_of_mem _ hr),
         get_dict_lookup_isSome (List.mem_map_of_mem _ hr),
         get_dict_lookup_isSome (List.mem_map_of_mem _ hr),
         get_dict_lookup_isSome (List.mem_map_of_mem _ hr),
         get_dict_lookup_isSome (List.mem_map_of_mem _ hr)⟩)
  have hsecs : secs = secs2 := by
    unfold encodeReactions at hok
    simpa using hok.symm.trans hok2
  subst hsecs
  rw [hget2 idx hidx]
  simp only [Nat.zero_add]
  rw [reactionSection_lookup_trg_yld, product_all_getD rows idx hidx]

/-- A concrete one-row table for evaluating the reaction-encoding phase. -/
def row1 : Row :=
  { rxn_id := "r1", temperature_deg_c := 25, time_h := 16, atmosphere := "N2",
    scale_umol := 100, concentration_mmol_l := 50, startingmat_1_smiles := "CCO",
    startingmat_2_smiles := "CC(=O)O", startingmat_2_eq := 3,
    reagent_1_smiles := "OS(O)(=O)=O", reagent_1_eq := 2,
    catalyst_1_smiles := "cat1", catalyst_1_eq := 1/10,
    additive_1_smiles := "add1", additive_1_eq := 1/2,
    solvent_1_smiles := "O", solvent_1_fraction := 9/10,
    solvent_2_smiles := "CS(C)=O", solvent_2_fraction := 1/10,
    product_mono := 1/2, product_di := 1/5, product_non := 3/10, binary := 1 }

/-- The one-row table. -/
def rows1 : List Row := [row1]

/-- A concrete stand-in for the fingerprint collaborator. -/
def fp1 : String → List ℕ := fun _ => List.replicate 256 0

/-- Witness for C3 on the concrete one-row table: the encoding succeeds and
writes `trg_yld = product_mono + product_di` for row 0. -/
theorem C3_witness :
    ∃ secs, encodeReactions fp1 rows1 = Except.ok secs ∧
      ((secs.getD 0 ("", [])).2).lookup "trg_yld" =
        some (H5Data.ratArr
          [(rows1.getD 0 row0).product_mono + (rows1.getD 0 row0).product_di]) :=
  ⟨_, rfl, C3_target_is_mono_plus_di fp1 rows1 0 _ rfl (by decide)⟩

/-- C4 as stated is false on the code: a reaction section holds 20 datasets,
and after removing the 2 fingerprints, the 6 categorical ids and the 2
targets, 10 numeric condition datasets remain — not 8, so the claimed
decomposition 2 + 8 + 6 + 2 (= 18) cannot account for the section. -/
theorem C4_counterexample :
    reactionNumericConditionFields.length = 10 ∧
    ¬ reactionNumericConditionFields.length = 8 ∧
    (reactionSection [] [] 0 0 0 0 0 0 0 0 0 0 0 0 0 0 0 0 0 0).length = 20 ∧
    ¬ (reactionSection [] [] 0 0 0 0 0 0 0 0 0 0 0 0 0 0 0 0 0 0).length =
        reactionFingerprintFields.length + 8 + reactionCategoricalIdFields.length +
          reactionTargetFields.length ∧
    ((reactionSection [] [] 0 0 0 0 0 0 0 0 0 0 0 0 0 0 0 0 0 0).map Prod.fst).filter
        (fun nm => !(nm ∈ reactionFingerprintFields) &&
          !(nm ∈ reactionCategoricalIdFields) && !(nm ∈ reactionTargetFields)) =
      reactionNumericConditionFields := by
  refine ⟨by decide, by decide, rfl, by decide, rfl⟩

/-- C4 (amended) — every reaction-container section holds exactly 20 named
fields: 2 fingerprints, 10 numeric condition values, 6 categorical ids and 2
targets, in that order. -/
theorem C4_amended_twenty_fields (fp : String → List ℕ) (rows : List Row)
    (idx : ℕ) (secs : List (String × List (String × H5Data)))
    (hok : encodeReactions fp rows = Except.ok secs) (hidx : idx < rows.length) :
    ((secs.getD idx ("", [])).2).map Prod.fst =
      reactionFingerprintFields ++ reactionNumericConditionFields ++
        reactionCategoricalIdFields ++ reactionTargetFields ∧
    ((secs.getD idx ("", [])).2).length = 20 ∧
    (((secs.getD idx ("", [])).2).map Prod.fst).Nodup ∧
    reactionFingerprintFields.length = 2 ∧
    reactionNumericConditionFields.length = 10 ∧
    reactionCategoricalIdFields.length = 6 ∧
    reactionTargetFields.length = 2 := by
  obtain ⟨secs2, hok2, hlen2, hget2⟩ :=
    encodeRows_eq_ok fp
      (get_dict_for_embedding (rows.map (fun r => r.reagent_1_smiles)))
      (get_dict_for_embedding (rows.map (fun r => r.solvent_1_smiles)))
      (get_dict_for_embedding (rows.map (fun r => r.solvent_2_smiles)))
      (get_dict_for_embedding (rows.map (fun r => r.catalyst_1_smiles)))
      (get_dict_for_embedding (rows.map (fun r => r.additive_1_smiles)))
      (get_dict_for_embedding (rows.map (fun r => r.atmosphere)))
      (product_all (rows.map (fun r => r.product_mono)) (rows.map (fun r => r.product_di)))
      (rows.map (fun r => r.binary)) rows 0
      (fun r hr =>
        ⟨get_dict_lookup_isSome (List.mem_map_of_mem _ hr),
         get_dict_lookup_isSome (List.mem_map_of_mem _ hr),
         get_dict_lookup_isSome (List.mem_map_of_mem _ hr),
         get_dict_lookup_isSome (List.mem_map_of_mem _ hr),
         get_dict_lookup_isSome (List.mem_map_of_mem _ hr),
         get_dict_lookup_isSome (List.mem_map_of_mem _ hr)⟩)
  have hsecs : secs = secs2 := by
    unfold encodeReactions at hok
    simpa using hok.symm.trans hok2
  subst hsecs
  rw [hget2 idx hidx]
  refine ⟨rfl, rfl, ?_, rfl, rfl, rfl, rfl⟩
  show (reactionFingerprintFields ++ reactionNumericConditionFields ++
    reactionCategoricalIdFields ++ reactionTargetFields).Nodup
  decide

/-- Witness for C4 (amended) on the concrete one-row table. -/
theorem C4_witness :
    ∃ secs, encodeReactions fp1 rows1 = Except.ok secs ∧
      (((secs.getD 0 ("", [])).2).map Prod.fst =
        reactionFingerprintFields ++ reactionNumericConditionFields ++
          reactionCategoricalIdFields ++ reactionTargetFields ∧
      ((secs.getD 0 ("", [])).2).length = 20 ∧
      (((secs.getD 0 ("", [])).2).map Prod.fst).Nodup ∧
      reactionFingerprintFields.length = 2 ∧
      reactionNumericConditionFields.length = 10 ∧
      reactionCategoricalIdFields.length = 6 ∧
      reactionTargetFields.length = 2) :=
  ⟨_, rfl, C4_amended_twenty_fields fp1 rows1 0 _ rfl (by decide)⟩

/-- Running a block of column reads followed by anything else, when one of
the columns is absent, creates no file and stops with an error. -/
theorem runEvents_read_fail (present : String → Bool) :
    ∀ (cs : List String) (rest : List MainEvent),
      (∃ c ∈ cs, present c = false) →
      (runEvents present (cs.map MainEvent.readColumn ++ rest)).1 = [] ∧
      ((runEvents present (cs.map MainEvent.readColumn ++ rest)).2).isSome = true := by
  intro cs
  induction cs with
  | nil => intro rest h; simp at h
  | cons c t ih =>
      intro rest h
      by_cases hc : present c
      · have h2 : ∃ x ∈ t, present x = false := by
          rcases h with ⟨x, hx, hpx⟩
          rcases List.mem_cons.mp hx with rfl | hxt
          · rw [hc] at hpx; cases hpx
          · exact ⟨x, hxt, hpx⟩
        simpa [runEvents, hc] using ih rest h2
      · simp [runEvents, hc]

/-- C8 — if any required column is missing from the input table, the run
fails during column extraction, before any output file is created: the list
of files written is empty and the error is set. -/
theorem C8_missing_column_no_output (present : String → Bool) (c : String)
    (hc : c ∈ requiredColumns) (hmiss : present c = false) :
    (runEvents present mainEvents).1 = [] ∧
    ((runEvents present mainEvents).2).isSome = true :=
  runEvents_read_fail present requiredColumns (outputFiles.map MainEvent.writeFile)
    ⟨c, hc, hmiss⟩

/-- A table missing exactly the `binary` column. -/
def present0 : String → Bool := fun c => !(c == "binary")

/-- Witness for C8: with the `binary` column missing, no output file is
created and the run errors out. -/
theorem C8_witness :
    (runEvents present0 mainEvents).1 = [] ∧
    ((runEvents present0 mainEvents).2).isSome = true :=
  C8_missing_column_no_output present0 "binary" (by decide) (by decide)

end Minisci
